import Mathlib

/-!
Verification of `src/panic_message_checking.rs` (rust-helpers).

The file embeds the single public operation `assert(f, exp_msg)` and its
supporting machinery as a shallow functional model:

* `HOOK_GUARD` (the process-wide `AtomicBool`, `true` = free) and the panic
  hook become fields of an explicit `GlobalState`.
* The per-call pair `(atom_msg : AtomicPtr<Option<String>>, atom_flg :
  AtomicBool)` becomes `MessageRelay`; `atom_msg = none` models the initial
  dangling pointer, `atom_msg = some m` models a pointer to the published
  `Some(m)`.
* A callback under test is `Option PanicInfo`: `none` returns normally,
  `some pi` panics with location `pi.loc` and payload `pi.msg`.  The panic
  hook observes `pi.to_string()`, whose text is
  `panicked at <loc>:\n<msg>` (confirmed by the repository's own test
  expectation strings).
* `assert` returns `Option AssertResult`: `none` models an undefined
  outcome (a spin loop that never exits, or a read through a dangling
  pointer); `some r` carries the test outcome (pass, or panic with a
  diagnostic string) together with the final global state and relay.

Rust's `str::contains` substring test is embedded as `strContains`,
implemented character-by-character so that its algebra (extension on either
side) can be proved directly.
-/

namespace PanicMessageChecking

/-- Does the character list begin with the given pattern?  Auxiliary for the
embedding of Rust's `str::contains`. -/
def startsWithL : List Char → List Char → Bool
  | _, [] => true
  | [], _ :: _ => false
  | c :: cs, p :: ps => if c = p then startsWithL cs ps else false

/-- Substring test on character lists: does `pat` occur contiguously inside
`hay`?  Embeds Rust's `str::contains` used at line 84 of the source. -/
def hasSubL : List Char → List Char → Bool
  | [], pat => startsWithL [] pat
  | c :: cs, pat => startsWithL (c :: cs) pat || hasSubL cs pat

/-- `strContains hay pat` embeds Rust's `hay.contains(pat)`. -/
def strContains (hay pat : String) : Bool :=
  hasSubL hay.data pat.data

/-- Location and payload of a panic raised by the callback under test. -/
structure PanicInfo where
  loc : String
  msg : String
deriving DecidableEq

/-- `PanicHookInfo::to_string()` as stored by the hook closure (line 59 of
the source): `panicked at <loc>:\n<payload>`.  The association of the
appends is to the right, which matches string concatenation semantically
and keeps the list-level reasoning direct. -/
def PanicInfo.toText (pi : PanicInfo) : String :=
  "panicked at " ++ (pi.loc ++ (":\n" ++ pi.msg))

/-- A callback under test: `none` returns normally, `some pi` panics. -/
def Callback := Option PanicInfo

/-- The process-wide panic hook: either the default hook or the custom one
installed by `assert` (the closure writing into the relay). -/
inductive HookState
  | default
  | custom
deriving DecidableEq

/-- Process-global state touched by `assert`: the `HOOK_GUARD` atomic
(`true` = free, as initialised at line 13) and the current panic hook. -/
structure GlobalState where
  hookGuard : Bool
  panicHook : HookState
deriving DecidableEq

/-- The per-call relay `Arc<(AtomicPtr<Option<String>>, AtomicBool)>`
(lines 35–38): `atom_msg = none` models the initial dangling pointer,
`atom_msg = some m` a pointer to the heap cell holding `Some(m)`;
`atom_flg` is the readiness flag. -/
structure MessageRelay where
  atom_msg : Option String
  atom_flg : Bool
deriving DecidableEq

/-- The relay as freshly created at the top of `assert` (lines 35–36):
dangling message pointer, flag `false`. -/
def relayInit : MessageRelay :=
  { atom_msg := none, atom_flg := false }

/-- Body of the installed panic hook (lines 58–64): formats the panic info,
stores the pointer to it, then sets the readiness flag. -/
def hookBody (pi : PanicInfo) (_r : MessageRelay) : MessageRelay :=
  { atom_msg := some pi.toText, atom_flg := true }

/-- `catch_unwind(|| f())` (lines 66–68) under the current panic hook:
returns `res.is_err()` and the relay state after the call.  When the
callback panics, the runtime invokes the current hook on the panicking
thread before `catch_unwind` returns, so the custom hook's writes are
already performed in the returned relay. -/
def catch_unwind (hook : HookState) (cb : Callback) (r : MessageRelay) :
    Bool × MessageRelay :=
  match cb with
  | none => (false, r)
  | some pi =>
    match hook with
    | HookState.custom => (true, hookBody pi r)
    | HookState.default => (true, r)

/-- `impl Drop for GuardReleaser` (lines 17–21): store `true` (free) into
`HOOK_GUARD`.  Runs when the `lock` binding goes out of scope, on normal
return and on unwind alike. -/
def guardReleaserDrop (g : GlobalState) : GlobalState :=
  { g with hookGuard := true }

/-- Diagnostic of the early-exit assertion at line 71 of the source. -/
def noPanicDiag : String :=
  "FnOnce provided did not panic at all."

/-- Diagnostic produced by the mismatch assertion at lines 83–88: the
format text `\r\nMISMATCH ⸺ expected message not contained\r\nMSG: ` /
`\r\nEXP:` with the captured message and the expected substring spliced
in.  Note the two-em dash, the CR LF separators, the leading CR LF and the
absence of a space after `EXP:`, all exactly as in the source. -/
def mismatchDiag (msg exp_msg : String) : String :=
  "\r\nMISMATCH ⸺ expected message not contained\r\nMSG: " ++
    (msg ++ ("\r\nEXP:" ++ exp_msg))

/-- Outcome of one `assert` call: silent pass, or a test failure carrying
the panic diagnostic raised by one of the two `assert!` macros. -/
inductive TestOutcome
  | pass
  | fail (diagnostic : String)
deriving DecidableEq

/-- Result of a terminating `assert` call: outcome, final global state,
final relay state. -/
structure AssertResult where
  outcome : TestOutcome
  final : GlobalState
  relay : MessageRelay
deriving DecidableEq

/-- The consume step (lines 79–81): load the pointer and `ptr.read()` the
cell.  The read is a bitwise copy — the cell is left untouched, nothing is
cleared.  `none` models the dangling-pointer case (the read would be
undefined). -/
def consume (r : MessageRelay) : Option String × MessageRelay :=
  (r.atom_msg, r)

/-- The public operation `assert(f, exp_msg)` (lines 33–89), as one call
running alone against global state `g0`.

* The acquire spin (lines 45–50) succeeds iff the guard is free; a held
  guard that is never released again makes the loop spin forever, modelled
  as `none`.
* After a successful compare-and-swap the guard is held and the
  `GuardReleaser` is armed; `set_hook` installs the custom hook.
* `catch_unwind` runs the callback; `take_hook` (line 69) then restores
  the default hook before either diagnostic can be raised.
* The early `assert!` (line 71) fails the test when the callback did not
  panic; unwinding drops the `GuardReleaser`, freeing the guard.
* Otherwise the spin on `atom_flg` (lines 76–78) exits only when the flag
  is `true` (`none` models spinning forever), the message is consumed and
  compared by `str::contains`, and the mismatch `assert!` (lines 83–88)
  decides pass or fail; both paths drop the `GuardReleaser`. -/
def assert (g0 : GlobalState) (cb : Callback) (exp_msg : String) :
    Option AssertResult :=
  if g0.hookGuard = false then
    none
  else
    let g1 : GlobalState := { g0 with hookGuard := false }
    let g2 : GlobalState := { g1 with panicHook := HookState.custom }
    let res := catch_unwind g2.panicHook cb relayInit
    let g3 : GlobalState := { g2 with panicHook := HookState.default }
    if res.1 = false then
      some ⟨TestOutcome.fail noPanicDiag, guardReleaserDrop g3, res.2⟩
    else if res.2.atom_flg = false then
      none
    else
      match consume res.2 with
      | (none, _) => none
      | (some msg, r2) =>
        if strContains msg exp_msg then
          some ⟨TestOutcome.pass, guardReleaserDrop g3, r2⟩
        else
          some ⟨TestOutcome.fail (mismatchDiag msg exp_msg),
            guardReleaserDrop g3, r2⟩

/-! ### Algebra of the substring test -/

theorem data_append (s t : String) : (s ++ t).data = s.data ++ t.data := by
  cases s
  cases t
  rfl

theorem startsWithL_nil (h : List Char) : startsWithL h [] = true := by
  cases h <;> rfl

theorem startsWithL_self (l : List Char) : startsWithL l l = true := by
  induction l with
  | nil => rfl
  | cons c cs ih => simp [startsWithL, ih]

theorem startsWithL_extend {h p : List Char} (t : List Char)
    (hw : startsWithL h p = true) : startsWithL (h ++ t) p = true := by
  induction p generalizing h with
  | nil => exact startsWithL_nil _
  | cons q qs ih =>
    cases h with
    | nil => simp [startsWithL] at hw
    | cons c cs =>
      simp only [startsWithL] at hw ⊢
      by_cases hcq : c = q
      · simp only [hcq, if_pos rfl] at hw ⊢
        exact ih hw
      · simp only [if_neg hcq] at hw
        exact absurd hw (by simp)

theorem hasSubL_nilPat (h : List Char) : hasSubL h [] = true := by
  cases h with
  | nil => rfl
  | cons c cs => simp [hasSubL, startsWithL]

theorem hasSubL_of_startsWithL {h p : List Char}
    (hw : startsWithL h p = true) : hasSubL h p = true := by
  cases h with
  | nil => simpa [hasSubL] using hw
  | cons c cs => simp [hasSubL, hw]

theorem hasSubL_self (l : List Char) : hasSubL l l = true :=
  hasSubL_of_startsWithL (startsWithL_self l)

theorem hasSubL_extendRight {h p : List Char} (t : List Char)
    (hw : hasSubL h p = true) : hasSubL (h ++ t) p = true := by
  induction h with
  | nil =>
    simp only [hasSubL] at hw
    cases p with
    | nil => exact hasSubL_nilPat t
    | cons q qs => simp [startsWithL] at hw
  | cons c cs ih =>
    simp only [hasSubL, Bool.or_eq_true] at hw
    rcases hw with hw | hw
    · exact hasSubL_of_startsWithL (startsWithL_extend t hw)
    · have := ih hw
      simp [hasSubL, this]

theorem hasSubL_extendLeft (pre : List Char) {h p : List Char}
    (hw : hasSubL h p = true) : hasSubL (pre ++ h) p = true := by
  induction pre with
  | nil => simpa using hw
  | cons c cs ih => simp [hasSubL, ih]

/-- Lifting of right-associated string appends to character lists. -/
theorem toText_data (pi : PanicInfo) :
    pi.toText.data =
      "panicked at ".data ++ (pi.loc.data ++ (":\n".data ++ pi.msg.data)) := by
  simp [PanicInfo.toText, data_append]

theorem strContains_toText_of_msg {pi : PanicInfo} {S : String}
    (hc : strContains pi.msg S = true) :
    strContains pi.toText S = true := by
  unfold strContains at hc ⊢
  rw [toText_data]
  exact hasSubL_extendLeft _ (hasSubL_extendLeft _ (hasSubL_extendLeft _ hc))

/-! ### C1 -/

/-- C1: for every callback that panics with a payload `M` and every
expected substring `S` contained in `M`, `assert(callback, S)` returns
normally — the captured text `pi.to_string()` contains `M`, so the
`str::contains` check succeeds and the test passes. -/
theorem assert_passes_of_contained_message
    (g0 : GlobalState) (pi : PanicInfo) (S : String)
    (hg : g0.hookGuard = true) (hc : strContains pi.msg S = true) :
    ∃ r, assert g0 (some pi) S = some r ∧ r.outcome = TestOutcome.pass := by
  have hfull : strContains pi.toText S = true := strContains_toText_of_msg hc
  refine ⟨⟨TestOutcome.pass, guardReleaserDrop ⟨false, HookState.default⟩,
    hookBody pi relayInit⟩, ?_, rfl⟩
  simp [assert, hg, catch_unwind, hookBody, consume, hfull]

/-- C1 witness: a concrete panicking callback and contained substring. -/
theorem assert_passes_of_contained_message_witness :
    strContains "hello world" "lo wo" = true ∧
      ∃ r, assert ⟨true, HookState.default⟩
          (some ⟨"src/lib.rs:9:9", "hello world"⟩) "lo wo" = some r ∧
        r.outcome = TestOutcome.pass :=
  ⟨by decide,
    assert_passes_of_contained_message ⟨true, HookState.default⟩
      ⟨"src/lib.rs:9:9", "hello world"⟩ "lo wo" rfl (by decide)⟩

/-! ### C2 -/

/-- The mismatch diagnostic shape exactly as the specification words it
(§4.5 step 7 / P2): em dash, LF separators, no leading line break and a
space after `EXP:`.  Declared only to compare the source's diagnostic
against the specification's rendering; everything else in this file is
embedded from the source. -/
def specMismatchDiag (message exp_msg : String) : String :=
  "MISMATCH — expected message not contained\nMSG: " ++
    (message ++ ("\nEXP: " ++ exp_msg))

theorem mismatchDiag_data (msg exp_msg : String) :
    (mismatchDiag msg exp_msg).data =
      "\r\nMISMATCH ⸺ expected message not contained\r\nMSG: ".data ++
        (msg.data ++ ("\r\nEXP:".data ++ exp_msg.data)) := by
  simp [mismatchDiag, data_append]

theorem mismatchDiag_contains_msg (msg exp_msg : String) :
    strContains (mismatchDiag msg exp_msg) msg = true := by
  unfold strContains
  rw [mismatchDiag_data]
  exact hasSubL_extendLeft _
    (hasSubL_extendRight _ (hasSubL_self msg.data))

theorem mismatchDiag_contains_exp (msg exp_msg : String) :
    strContains (mismatchDiag msg exp_msg) exp_msg = true := by
  unfold strContains
  rw [mismatchDiag_data]
  exact hasSubL_extendLeft _ (hasSubL_extendLeft _
    (hasSubL_extendLeft _ (hasSubL_self exp_msg.data)))

theorem strContains_toText_msg (pi : PanicInfo) :
    strContains pi.toText pi.msg = true := by
  unfold strContains
  rw [toText_data]
  exact hasSubL_extendLeft _ (hasSubL_extendLeft _
    (hasSubL_extendLeft _ (hasSubL_self pi.msg.data)))

/-- C2 counterexample: at a concrete input the mismatch diagnostic is not
of the exact form the claim states (neither with the captured message nor
with the raw payload spliced into the claimed template), and at another
concrete input a payload that does not contain the expected substring
still makes `assert` pass (the prefix `panicked` occurs in the location
text), so the claimed premise does not even force a failure. -/
theorem mismatch_diag_shape_counterexample :
    (Option.map AssertResult.outcome
        (assert ⟨true, HookState.default⟩
          (some ⟨"src/lib.rs:1:1", "boom"⟩) "zap")
      = some (TestOutcome.fail
          (mismatchDiag (PanicInfo.toText ⟨"src/lib.rs:1:1", "boom"⟩) "zap"))) ∧
    mismatchDiag (PanicInfo.toText ⟨"src/lib.rs:1:1", "boom"⟩) "zap"
      ≠ specMismatchDiag (PanicInfo.toText ⟨"src/lib.rs:1:1", "boom"⟩) "zap" ∧
    mismatchDiag (PanicInfo.toText ⟨"src/lib.rs:1:1", "boom"⟩) "zap"
      ≠ specMismatchDiag "boom" "zap" ∧
    (Option.map AssertResult.outcome
        (assert ⟨true, HookState.default⟩
          (some ⟨"src/lib.rs:1:1", "boom"⟩) "panicked")
      = some TestOutcome.pass) := by
  decide

/-- C2 (amended): for every callback panicking with payload `M` at
location `L`, if the captured text `panicked at L:\nM` does not contain
the expected substring `S`, then `assert` fails with the diagnostic
`\r\nMISMATCH ⸺ expected message not contained\r\nMSG: <captured>\r\nEXP:<S>`
(two-em dash, CR LF separators, leading CR LF, no space after `EXP:`),
and that diagnostic contains both `M` and `S` verbatim. -/
theorem assert_mismatch_diag_amended
    (g0 : GlobalState) (pi : PanicInfo) (S : String)
    (hg : g0.hookGuard = true)
    (hm : strContains pi.toText S = false) :
    ∃ r, assert g0 (some pi) S = some r ∧
      r.outcome = TestOutcome.fail (mismatchDiag pi.toText S) ∧
      strContains (mismatchDiag pi.toText S) pi.msg = true ∧
      strContains (mismatchDiag pi.toText S) S = true := by
  refine ⟨⟨TestOutcome.fail (mismatchDiag pi.toText S),
    guardReleaserDrop ⟨false, HookState.default⟩, hookBody pi relayInit⟩,
    ?_, rfl, ?_, ?_⟩
  · simp [assert, hg, catch_unwind, hookBody, consume, hm]
  · have h1 := strContains_toText_msg pi
    unfold strContains at h1 ⊢
    rw [mismatchDiag_data]
    exact hasSubL_extendLeft _ (hasSubL_extendRight _ h1)
  · exact mismatchDiag_contains_exp _ _

/-- C2 witness: a concrete panicking callback whose captured text does not
contain the expected substring. -/
theorem assert_mismatch_diag_amended_witness :
    strContains (PanicInfo.toText ⟨"src/lib.rs:1:1", "boom"⟩) "zap" = false ∧
      ∃ r, assert ⟨true, HookState.default⟩
          (some ⟨"src/lib.rs:1:1", "boom"⟩) "zap" = some r ∧
        r.outcome = TestOutcome.fail
          (mismatchDiag (PanicInfo.toText ⟨"src/lib.rs:1:1", "boom"⟩) "zap") ∧
        strContains
          (mismatchDiag (PanicInfo.toText ⟨"src/lib.rs:1:1", "boom"⟩) "zap")
          "boom" = true ∧
        strContains
          (mismatchDiag (PanicInfo.toText ⟨"src/lib.rs:1:1", "boom"⟩) "zap")
          "zap" = true :=
  ⟨by decide,
    assert_mismatch_diag_amended ⟨true, HookState.default⟩
      ⟨"src/lib.rs:1:1", "boom"⟩ "zap" rfl (by decide)⟩

/-! ### C3 -/

theorem mismatchDiag_head (m e : String) :
    (mismatchDiag m e).data.head? = some '\r' := by
  rw [mismatchDiag_data]
  rfl

/-- C3 counterexample: for a concrete callback that returns normally,
`assert` fails with the diagnostic `FnOnce provided did not panic at
all.`, which is not the string the claim quotes. -/
theorem no_panic_diag_counterexample :
    (Option.map AssertResult.outcome
        (assert ⟨true, HookState.default⟩ none "anything")
      = some (TestOutcome.fail noPanicDiag)) ∧
    noPanicDiag ≠ "callable provided did not fail at all." := by
  decide

/-- C3 (amended): for every callback that completes without panicking,
`assert` fails with the fixed diagnostic `FnOnce provided did not panic at
all.` for every expected substring (the diagnostic does not depend on it),
and this diagnostic is distinct from every content-mismatch diagnostic. -/
theorem assert_no_panic_diag_amended :
    (∀ g0 S r, assert g0 none S = some r →
      r.outcome = TestOutcome.fail noPanicDiag) ∧
    ∀ m e, noPanicDiag ≠ mismatchDiag m e := by
  constructor
  · intro g0 S r h
    by_cases hg : g0.hookGuard = false
    · simp [assert, hg] at h
    · simp [assert, hg, catch_unwind] at h
      rw [← h]
  · intro m e h
    have hh := congrArg (fun s => s.data.head?) h
    simp only [mismatchDiag_head] at hh
    exact absurd hh (by decide)

/-- C3 witness: the amended theorem applied to a concrete run with a
non-panicking callback. -/
theorem assert_no_panic_diag_amended_witness :
    (⟨TestOutcome.fail noPanicDiag, ⟨true, HookState.default⟩,
        relayInit⟩ : AssertResult).outcome
      = TestOutcome.fail noPanicDiag :=
  assert_no_panic_diag_amended.1 ⟨true, HookState.default⟩ "x" _ (by decide)

/-! ### C10 -/

/-- C10: the text compared against the expected substring is the full
formatted panic information (the hook stores `pi.to_string()`), which
prefixes the payload with `panicked at <loc>:`; hence for every panicking
callback the expected substring `panicked at` makes `assert` pass even
when the payload itself does not contain it, and the relay indeed carries
the full formatted text. -/
theorem panicked_at_text_passes
    (g0 : GlobalState) (pi : PanicInfo)
    (hg : g0.hookGuard = true)
    (_hm : strContains pi.msg "panicked at" = false) :
    ∃ r, assert g0 (some pi) "panicked at" = some r ∧
      r.outcome = TestOutcome.pass ∧
      r.relay.atom_msg = some pi.toText := by
  have hfull : strContains pi.toText "panicked at" = true := by
    unfold strContains
    rw [toText_data]
    exact hasSubL_extendRight _ (by decide)
  refine ⟨⟨TestOutcome.pass, guardReleaserDrop ⟨false, HookState.default⟩,
    hookBody pi relayInit⟩, ?_, rfl, rfl⟩
  simp [assert, hg, catch_unwind, hookBody, consume, hfull]

/-- C10 witness: a concrete payload not containing `panicked at`. -/
theorem panicked_at_text_passes_witness :
    strContains "boom" "panicked at" = false ∧
      ∃ r, assert ⟨true, HookState.default⟩
          (some ⟨"src/lib.rs:2:5", "boom"⟩) "panicked at" = some r ∧
        r.outcome = TestOutcome.pass ∧
        r.relay.atom_msg = some (PanicInfo.toText ⟨"src/lib.rs:2:5", "boom"⟩) :=
  ⟨by decide,
    panicked_at_text_passes ⟨true, HookState.default⟩
      ⟨"src/lib.rs:2:5", "boom"⟩ rfl (by decide)⟩

/-! ### C4 -/

/-- C4: on every exit path of `assert` that terminates — normal return,
the early `did not panic` failure, the mismatch failure — the global
guard is free again in the final state.  The release is the `Drop`
implementation of `GuardReleaser` (lines 17–21), armed once at line 56 and
executed by scope exit on return and on unwind alike, not an explicit call
on each path. -/
theorem guard_released_on_every_exit
    (g0 : GlobalState) (cb : Callback) (S : String) (r : AssertResult)
    (h : assert g0 cb S = some r) : r.final.hookGuard = true := by
  by_cases hg : g0.hookGuard = false
  · simp [assert, hg] at h
  · match cb with
    | none =>
      simp [assert, hg, catch_unwind] at h
      rw [← h]
      rfl
    | some pi =>
      simp only [assert, hg, if_false, catch_unwind, hookBody, consume] at h
      by_cases hc : strContains pi.toText S
      · simp [hc] at h
        rw [← h]
        rfl
      · simp [hc] at h
        rw [← h]
        rfl

/-- C4 witness: a concrete terminating call ends with the guard free. -/
theorem guard_released_on_every_exit_witness :
    (⟨TestOutcome.fail noPanicDiag, ⟨true, HookState.default⟩,
        relayInit⟩ : AssertResult).final.hookGuard = true :=
  guard_released_on_every_exit ⟨true, HookState.default⟩ none "x" _ (by decide)

/-! ### C7 -/

/-- C7: the spin on the readiness flag is reached only after the callback
is known to have panicked (the early exit at line 71 precedes it), and
whenever `assert` runs it terminates — no spin loop runs forever — because
the panic hook executes on the panicking thread before `catch_unwind`
returns, so the flag is already `true` when the spin begins.  The second
conjunct states exactly that: after `catch_unwind` under the custom hook,
a panicking callback leaves the relay flag set. -/
theorem await_ready_terminates
    (g0 : GlobalState) (cb : Callback) (S : String)
    (hg : g0.hookGuard = true) :
    (∃ r, assert g0 cb S = some r) ∧
      (∀ pi, cb = some pi →
        (catch_unwind HookState.custom cb relayInit).2.atom_flg = true) := by
  constructor
  · match cb with
    | none =>
      refine ⟨⟨TestOutcome.fail noPanicDiag,
        guardReleaserDrop ⟨false, HookState.default⟩, relayInit⟩, ?_⟩
      simp [assert, hg, catch_unwind]
    | some pi =>
      by_cases hc : strContains pi.toText S
      · refine ⟨⟨TestOutcome.pass, guardReleaserDrop ⟨false, HookState.default⟩,
          hookBody pi relayInit⟩, ?_⟩
        simp [assert, hg, catch_unwind, hookBody, consume, hc]
      · refine ⟨⟨TestOutcome.fail (mismatchDiag pi.toText S),
          guardReleaserDrop ⟨false, HookState.default⟩, hookBody pi relayInit⟩, ?_⟩
        simp [assert, hg, catch_unwind, hookBody, consume, hc]
  · intro pi hpi
    subst hpi
    rfl

/-- C7 witness: a concrete panicking callback; the run is defined and the
flag is set when the spin would begin. -/
theorem await_ready_terminates_witness :
    ((∃ r, assert ⟨true, HookState.default⟩
        (some ⟨"src/lib.rs:3:3", "boom"⟩) "boom" = some r) ∧
      (∀ pi, (some ⟨"src/lib.rs:3:3", "boom"⟩ : Callback) = some pi →
        (catch_unwind HookState.custom
            (some ⟨"src/lib.rs:3:3", "boom"⟩) relayInit).2.atom_flg = true)) :=
  await_ready_terminates ⟨true, HookState.default⟩
    (some ⟨"src/lib.rs:3:3", "boom"⟩) "boom" rfl

/-! ### C8 -/

/-- C8: after any terminating `assert` call the panic hook is the default
one again — `take_hook` at line 69 runs right after `catch_unwind`,
regardless of the callback's outcome and before either `assert!`
diagnostic can be raised — so that a panic outside `assert` immediately
afterwards is handled by the default mechanism; when the pre-call hook
was the default (the no-nesting situation the guard enforces), this is
exactly the pre-call state. -/
theorem hook_restored_after_assert
    (g0 : GlobalState) (cb : Callback) (S : String) (r : AssertResult)
    (h : assert g0 cb S = some r) :
    r.final.panicHook = HookState.default ∧
      (g0.panicHook = HookState.default →
        r.final.panicHook = g0.panicHook) := by
  have hd : r.final.panicHook = HookState.default := by
    by_cases hg : g0.hookGuard = false
    · simp [assert, hg] at h
    · match cb with
      | none =>
        simp [assert, hg, catch_unwind] at h
        rw [← h]
        rfl
      | some pi =>
        simp only [assert, hg, if_false, catch_unwind, hookBody, consume] at h
        by_cases hc : strContains pi.toText S
        · simp [hc] at h
          rw [← h]
          rfl
        · simp [hc] at h
          rw [← h]
          rfl
  exact ⟨hd, fun hpre => by rw [hd, hpre]⟩

/-- C8 witness: a concrete run restores the default hook. -/
theorem hook_restored_after_assert_witness :
    (⟨TestOutcome.fail noPanicDiag, ⟨true, HookState.default⟩,
        relayInit⟩ : AssertResult).final.panicHook = HookState.default ∧
      ((⟨true, HookState.default⟩ : GlobalState).panicHook = HookState.default →
        (⟨TestOutcome.fail noPanicDiag, ⟨true, HookState.default⟩,
            relayInit⟩ : AssertResult).final.panicHook
          = (⟨true, HookState.default⟩ : GlobalState).panicHook) :=
  hook_restored_after_assert ⟨true, HookState.default⟩ none "x" _ (by decide)

/-! ### C9 -/

/-- C9 counterexample: consuming a concrete published relay leaves the
payload in place (nothing is cleared — `ptr.read()` is a bitwise copy),
and a second consume of the very same relay silently returns the same
message again instead of failing fast. -/
theorem consume_no_clear_counterexample :
    consume ⟨some "m", true⟩ = (some "m", ⟨some "m", true⟩) ∧
      (consume (consume ⟨some "m", true⟩).2).1 = some "m" := by
  decide

/-- C9 (amended): the orchestrator reads the relay's payload once per
`assert` call, but the consume step does not clear the slot: it returns
the relay unchanged, and a second consume of the same relay silently
yields the same message again rather than failing fast; the exactly-once
discipline rests solely on the orchestrator performing a single consume
per call. -/
theorem consume_amended (r : MessageRelay) (m : String)
    (h : r.atom_msg = some m) :
    consume r = (some m, r) ∧ (consume (consume r).2).1 = some m := by
  constructor
  · simp [consume, h]
  · simp [consume, h]

/-- C9 witness: the amended statement at a concrete published relay. -/
theorem consume_amended_witness :
    (⟨some "m", true⟩ : MessageRelay).atom_msg = some "m" ∧
      (consume ⟨some "m", true⟩ = (some "m", ⟨some "m", true⟩) ∧
        (consume (consume (⟨some "m", true⟩ : MessageRelay)).2).1 = some "m") :=
  ⟨rfl, consume_amended ⟨some "m", true⟩ "m" rfl⟩

/-! ### C6 -/

/-- The memory orderings of `std::sync::atomic::Ordering`, as data, so
that the orderings the source passes at each atomic access can be stated
and compared. -/
inductive AtomicOrdering
  | relaxed
  | acquire
  | release
  | acqrel
  | seqcst
deriving DecidableEq

/-- Ordering of the hook's message-pointer store, line 62 of the source:
`info2.0.store(Box::into_raw(msg), Ordering::Relaxed)`. -/
def msgStoreOrdering : AtomicOrdering := AtomicOrdering.relaxed

/-- Ordering of the hook's readiness-flag store, line 63:
`info2.1.store(true, Ordering::Relaxed)`. -/
def flgStoreOrdering : AtomicOrdering := AtomicOrdering.relaxed

/-- Ordering of the spin's readiness-flag load, line 76:
`atom_flg.load(Ordering::Relaxed)`. -/
def flgLoadOrdering : AtomicOrdering := AtomicOrdering.relaxed

/-- Ordering of the message-pointer load, line 79:
`info.0.load(Ordering::Relaxed)`. -/
def msgLoadOrdering : AtomicOrdering := AtomicOrdering.relaxed

/-- C6 counterexample: the readiness-flag handoff is not an
acquire/release pairing — both sides of the flag access, and both sides
of the pointer access, are performed with relaxed ordering. -/
theorem relay_ordering_counterexample :
    ¬(flgStoreOrdering = AtomicOrdering.release ∧
        flgLoadOrdering = AtomicOrdering.acquire) ∧
      flgStoreOrdering = AtomicOrdering.relaxed ∧
      flgLoadOrdering = AtomicOrdering.relaxed := by
  decide

/-- C6 (amended): the handoff of the captured message uses relaxed
ordering at all four atomic accesses (message store, flag store, flag
load, message load); the code relies on the panic hook running on the
panicking thread itself rather than on an acquire/release pairing, which
the specification demands only of reimplementations. -/
theorem relay_ordering_relaxed :
    msgStoreOrdering = AtomicOrdering.relaxed ∧
      flgStoreOrdering = AtomicOrdering.relaxed ∧
      flgLoadOrdering = AtomicOrdering.relaxed ∧
      msgLoadOrdering = AtomicOrdering.relaxed := by
  decide

/-! ### C5

The guard protocol of `n` concurrent `assert` callers restricted to their
accesses of `HOOK_GUARD`: each caller spins on
`compare_exchange(true, false, ..)` (lines 45–50) and later stores `true`
through `GuardReleaser::drop` (lines 17–21).  `true` is free, `false` is
held, exactly as in the source. -/

/-- Where one caller stands in the guard protocol. -/
inductive ThreadPhase
  | idle
  | trying
  | holding
  | done
deriving DecidableEq

/-- Shared state of `n` concurrent callers: the `HOOK_GUARD` atomic and
each caller's phase. -/
structure SysState (n : Nat) where
  hookGuard : Bool
  phase : Fin n → ThreadPhase

/-- Initial state: the guard is free (line 13 initialises it to `true`)
and nobody has entered `assert` yet. -/
def initSys (n : Nat) : SysState n :=
  ⟨true, fun _ => ThreadPhase.idle⟩

/-- One atomic step of the guard protocol.  `casFail` models a failed
compare-and-swap iteration of the spin: the state is unchanged and the
caller keeps spinning — no step blocks on a scheduler primitive. -/
inductive GuardStep {n : Nat} : SysState n → SysState n → Prop
  | start (s : SysState n) (i : Fin n) :
      s.phase i = ThreadPhase.idle →
      GuardStep s ⟨s.hookGuard, Function.update s.phase i ThreadPhase.trying⟩
  | casFail (s : SysState n) (i : Fin n) :
      s.phase i = ThreadPhase.trying → s.hookGuard = false →
      GuardStep s s
  | casSucceed (s : SysState n) (i : Fin n) :
      s.phase i = ThreadPhase.trying → s.hookGuard = true →
      GuardStep s ⟨false, Function.update s.phase i ThreadPhase.holding⟩
  | release (s : SysState n) (i : Fin n) :
      s.phase i = ThreadPhase.holding →
      GuardStep s ⟨true, Function.update s.phase i ThreadPhase.done⟩

/-- States reachable from the initial state by guard-protocol steps. -/
def ReachableGuard (n : Nat) (s : SysState n) : Prop :=
  Relation.ReflTransGen GuardStep (initSys n) s

/-- The inductive invariant: a free guard means nobody is holding, and at
most one caller is holding. -/
def GuardInv {n : Nat} (s : SysState n) : Prop :=
  (s.hookGuard = true → ∀ i, s.phase i ≠ ThreadPhase.holding) ∧
    (∀ i j, s.phase i = ThreadPhase.holding →
      s.phase j = ThreadPhase.holding → i = j)

theorem guardInv_init (n : Nat) : GuardInv (initSys n) := by
  constructor
  · intro _ i h
    simp [initSys] at h
  · intro i j hi _
    simp [initSys] at hi

theorem guardInv_step {n : Nat} {s s' : SysState n}
    (hinv : GuardInv s) (hstep : GuardStep s s') : GuardInv s' := by
  obtain ⟨hfree, huniq⟩ := hinv
  cases hstep with
  | start i hidle =>
    constructor
    · intro hg j hj
      by_cases hji : j = i
      · subst hji
        simp [Function.update_same] at hj
      · simp only [Function.update_noteq hji] at hj
        exact hfree hg j hj
    · intro a b ha hb
      by_cases hai : a = i
      · subst hai
        simp [Function.update_same] at ha
      · by_cases hbi : b = i
        · subst hbi
          simp [Function.update_same] at hb
        · simp only [Function.update_noteq hai] at ha
          simp only [Function.update_noteq hbi] at hb
          exact huniq a b ha hb
  | casFail i htry hg => exact ⟨hfree, huniq⟩
  | casSucceed i htry hg =>
    constructor
    · intro hg' _ _
      exact absurd hg' (by simp)
    · intro a b ha hb
      by_cases hai : a = i
      · by_cases hbi : b = i
        · rw [hai, hbi]
        · simp only [Function.update_noteq hbi] at hb
          exact absurd hb (hfree hg b)
      · simp only [Function.update_noteq hai] at ha
        exact absurd ha (hfree hg a)
  | release i hhold =>
    constructor
    · intro _ j hj
      by_cases hji : j = i
      · subst hji
        simp [Function.update_same] at hj
      · simp only [Function.update_noteq hji] at hj
        exact absurd (huniq j i hj hhold) hji
    · intro a b ha hb
      by_cases hai : a = i
      · subst hai
        simp [Function.update_same] at ha
      · by_cases hbi : b = i
        · subst hbi
          simp [Function.update_same] at hb
        · simp only [Function.update_noteq hai] at ha
          simp only [Function.update_noteq hbi] at hb
          exact huniq a b ha hb

theorem guardInv_reachable {n : Nat} {s : SysState n}
    (h : ReachableGuard n s) : GuardInv s := by
  induction h with
  | refl => exact guardInv_init n
  | tail _ hstep ih => exact guardInv_step ih hstep

/-- C5: under the guard's step relation — spinning compare-and-swap
free→held to acquire, never a blocking primitive, and an unconditional
store to free on release — every reachable state of any number of
concurrent callers has at most one holder of `HOOK_GUARD`. -/
theorem guard_mutual_exclusion
    (n : Nat) (s : SysState n) (h : ReachableGuard n s)
    (i j : Fin n)
    (hi : s.phase i = ThreadPhase.holding)
    (hj : s.phase j = ThreadPhase.holding) : i = j :=
  (guardInv_reachable h).2 i j hi hj

/-- C5 witness: a concrete two-caller execution in which caller 0 enters,
succeeds at the compare-and-swap and holds the guard; the theorem applied
there yields the (unique-holder) conclusion. -/
theorem guard_mutual_exclusion_witness : (0 : Fin 2) = (0 : Fin 2) :=
  guard_mutual_exclusion 2
    ⟨false, Function.update
      (Function.update (fun _ => ThreadPhase.idle) 0 ThreadPhase.trying)
      0 ThreadPhase.holding⟩
    (Relation.ReflTransGen.tail
      (Relation.ReflTransGen.tail Relation.ReflTransGen.refl
        (GuardStep.start (initSys 2) 0 rfl))
      (GuardStep.casSucceed
        ⟨true, Function.update (fun _ => ThreadPhase.idle) 0 ThreadPhase.trying⟩
        0 (by simp [Function.update_same]) rfl))
    0 0 (by simp [Function.update_same]) (by simp [Function.update_same])

end PanicMessageChecking
